import Mathlib

/-!
Verification of the candidate-selection / travel-time / scoring pipeline of the
Shanghai Subway Finder (`js/stationFinder.js`, with data shapes taken from
`js/gaodeApi.js` and configuration from `js/config.js`).

Modelling conventions:
* JavaScript numbers that only undergo field arithmetic (durations, distances,
  coordinates, weights) are idealised as `ℚ`.
* The one reachable JavaScript `NaN` (the `0 / 0` inside `balanceScore` when
  `maxTime = 0`) is modelled by `Option ℚ`: `none` stands for `NaN`.
* Trigonometry in `calculateDistance` is idealised over `ℝ`; `Math.atan2 y x`
  is modelled as `Complex.arg ⟨x, y⟩`, which agrees with it away from the
  negative-real-axis edge conventions.
* Asynchronous external calls are modelled by an explicit oracle environment
  `Env`; `await`/`Promise.all` of the deterministic model collapse to ordinary
  evaluation, with the source's batch structure kept.
* JavaScript `Array.prototype.sort` (ES2019+) is a stable sort; with the
  consistent comparators used by the source it is modelled by `List.mergeSort`,
  which is the unique stable sort for a total comparator.
-/

namespace SubwayFinder

/-- Config value `CONFIG.ALGORITHM.BALANCE_WEIGHT` from `js/config.js` (0.3). -/
def BALANCE_WEIGHT : ℚ := 3 / 10

/-- Config value `CONFIG.ALGORITHM.MAX_RESULTS` from `js/config.js`. -/
def MAX_RESULTS : Nat := 5

/-- Config value `CONFIG.ALGORITHM.SEARCH_RADIUS` from `js/config.js` (metres). -/
def SEARCH_RADIUS : ℚ := 3000

/-- Config value `CONFIG.ALGORITHM.MAX_CANDIDATES` from `js/config.js`. -/
def MAX_CANDIDATES : Nat := 10

/-- Geographic coordinate `{lng, lat}` as produced by geocoding. -/
structure Loc where
  lng : ℚ
  lat : ℚ
deriving DecidableEq

/-- Station record returned by `GaodeAPI.searchNearbySubwayStations`
(`gaodeApi.js` lines 322-331): `{name, address, lng, lat, distance}`. -/
structure NearStation where
  name : String
  address : String
  lng : ℚ
  lat : ℚ
  distance : ℚ
deriving DecidableEq

/-- Discovery-strategy tag attached to every candidate
(`source` field in `extractCandidateStations`). -/
inductive Source where
  | route
  | nearby
  | endpoint
deriving DecidableEq

/-- Candidate entry as stored in the dedup `Map` of `extractCandidateStations`.
Route-sourced entries are `{ name, source: 'route' }` only (no coordinates),
so the station data is `Option NearStation`, `none` for route entries. -/
structure CandEntry where
  name : String
  info : Option NearStation
  source : Source
deriving DecidableEq

/-- Transit route as produced by `GaodeAPI.getTransitRoute`
(`gaodeApi.js` lines 280-289).  `allSubwayStations = none` models a route
object on which the truthiness guard
`mainRoute.segments && mainRoute.segments.allSubwayStations` fails. -/
structure Route where
  duration : ℚ
  walking_distance : ℚ
  distance : ℚ
  cost : ℚ
  allSubwayStations : Option (List String)
deriving DecidableEq

/-- Candidate annotated with travel times, as built in
`calculateTravelTimes` (`stationFinder.js` lines 182-190): the spread
`...station` plus timing fields and the two raw routes. -/
structure TimedStation where
  station : CandEntry
  timeFromStart : ℚ
  timeToEnd : ℚ
  distanceFromStart : ℚ
  distanceToEnd : ℚ
  routeFromStart : Route
  routeToEnd : Route
deriving DecidableEq

/-- Scored candidate, as built in `rankStations`
(`stationFinder.js` lines 221-237).  `balanceScore` is `Option ℚ` because the
source computes `100 - (timeDiff / maxTime) * 100` with no guard: at
`maxTime = 0` the JavaScript value is `NaN`, modelled as `none`. -/
structure ScoredStation where
  base : TimedStation
  maxTime : ℚ
  timeDiff : ℚ
  totalTime : ℚ
  score : ℚ
  balanceScore : Option ℚ
deriving DecidableEq

/-- JavaScript division as used in `balanceScore`: the only zero-denominator
case reachable from `rankStations` is `0 / 0` (since `timeDiff ≤ maxTime` for
non-negative times), which is `NaN`, modelled as `none`. -/
def jsDiv (a b : ℚ) : Option ℚ := if b = 0 then none else some (a / b)

/-- Body of the `map` in `rankStations` (`stationFinder.js` lines 221-237):
computes `maxTime`, `timeDiff`, `totalTime`, `score` and `balanceScore` for one
timed candidate.  `w` is `this.balanceWeight` (`CONFIG.ALGORITHM.BALANCE_WEIGHT`
in the deployed object; kept as a parameter since the spec quantifies over it). -/
def scoreStation (w : ℚ) (s : TimedStation) : ScoredStation :=
  let maxTime := max s.timeFromStart s.timeToEnd
  let timeDiff := |s.timeFromStart - s.timeToEnd|
  let totalTime := s.timeFromStart + s.timeToEnd
  let score := maxTime + timeDiff * w
  { base := s
    maxTime := maxTime
    timeDiff := timeDiff
    totalTime := totalTime
    score := score
    balanceScore := (jsDiv timeDiff maxTime).map (fun q => 100 - q * 100) }

/-- Comparator of the final `.sort((a, b) => a.score - b.score)`:
ascending by `score`. -/
def scoreLe (a b : ScoredStation) : Bool := decide (a.score ≤ b.score)

/-- `StationFinder.rankStations` (`stationFinder.js` lines 220-240): map each
timed candidate to its scored form, then stable-sort ascending by `score`. -/
def rankStations (w : ℚ) (stations : List TimedStation) : List ScoredStation :=
  (stations.map (scoreStation w)).mergeSort scoreLe

/-- Route value with all fields zero and no station list; used to build
concrete timed candidates in evidence theorems. -/
def zeroRoute : Route :=
  { duration := 0, walking_distance := 0, distance := 0, cost := 0
    allSubwayStations := none }

/-- Timed candidate with `timeFromStart = timeToEnd = 0`
(degenerate co-located case of claim C1). -/
def zeroTimedStation : TimedStation :=
  { station := { name := "人民广场", info := none, source := Source.nearby }
    timeFromStart := 0, timeToEnd := 0
    distanceFromStart := 0, distanceToEnd := 0
    routeFromStart := zeroRoute, routeToEnd := zeroRoute }

/-- Timed candidate of end-to-end scenario 2: `a = 300 s`, `b = 900 s`. -/
def scenario2Station : TimedStation :=
  { station := { name := "陕西南路", info := none, source := Source.nearby }
    timeFromStart := 300, timeToEnd := 900
    distanceFromStart := 0, distanceToEnd := 0
    routeFromStart := zeroRoute, routeToEnd := zeroRoute }

/-- C1: on a timed candidate with `timeFromStart = timeToEnd = 0` the scorer
does yield `score = 0`, but `balanceScore` is `100 - (0/0) * 100 = NaN`
(modelled `none`), not `100`: the source has no `maxTime = 0` special case,
contradicting the claim (and spec section 7, which mandates one). -/
theorem rankStations_zero_times_nan :
    rankStations BALANCE_WEIGHT [zeroTimedStation]
      = [scoreStation BALANCE_WEIGHT zeroTimedStation]
    ∧ (scoreStation BALANCE_WEIGHT zeroTimedStation).score = 0
    ∧ (scoreStation BALANCE_WEIGHT zeroTimedStation).balanceScore = none := by
  refine ⟨by simp [rankStations], ?_, ?_⟩
  · simp [scoreStation, zeroTimedStation, BALANCE_WEIGHT]
  · simp [scoreStation, zeroTimedStation, jsDiv]

/-- C3: the scorer computes `maxTime = max a b`, `timeDiff = |a - b|`,
`totalTime = a + b`, `score = max a b + |a - b| * w` for every timed candidate
and every balance weight; and on scenario 2 (`a = 300`, `b = 900`, `w = 0.3`)
it yields `maxTime = 900`, `timeDiff = 600`, `score = 1080` and
`balanceScore = 100/3 ≈ 33`. -/
theorem scoreStation_formula (w : ℚ) (s : TimedStation) :
    (scoreStation w s).maxTime = max s.timeFromStart s.timeToEnd
    ∧ (scoreStation w s).timeDiff = |s.timeFromStart - s.timeToEnd|
    ∧ (scoreStation w s).totalTime = s.timeFromStart + s.timeToEnd
    ∧ (scoreStation w s).score
        = max s.timeFromStart s.timeToEnd + |s.timeFromStart - s.timeToEnd| * w
    ∧ rankStations w [s] = [scoreStation w s]
    ∧ (scoreStation (3/10) scenario2Station).maxTime = 900
    ∧ (scoreStation (3/10) scenario2Station).timeDiff = 600
    ∧ (scoreStation (3/10) scenario2Station).score = 1080
    ∧ (scoreStation (3/10) scenario2Station).balanceScore = some (100/3)
    ∧ |(100 : ℚ)/3 - 33| < 1 := by
  refine ⟨rfl, rfl, rfl, rfl, by simp [rankStations], ?_, ?_, ?_, ?_, ?_⟩
  · norm_num [scoreStation, scenario2Station]
  · norm_num [scoreStation, scenario2Station, abs]
  · norm_num [scoreStation, scenario2Station, abs]
  · norm_num [scoreStation, scenario2Station, jsDiv, abs]
  · norm_num [abs]

/-- C7: for a fixed `timeFromStart` and `timeFromStart ≤ b₁ < b₂`, the score
strictly increases in the far leg whenever the balance weight is positive; and
at weight `0` the score is exactly `max timeFromStart timeToEnd`. -/
theorem scoreStation_monotone (w : ℚ) (s₁ s₂ : TimedStation)
    (hfix : s₂.timeFromStart = s₁.timeFromStart)
    (h₁ : s₁.timeFromStart ≤ s₁.timeToEnd)
    (h₂ : s₁.timeToEnd < s₂.timeToEnd)
    (hw : 0 < w) :
    (scoreStation w s₁).score < (scoreStation w s₂).score
    ∧ ∀ t : TimedStation, (scoreStation 0 t).score
        = max t.timeFromStart t.timeToEnd := by
  constructor
  · have h₃ : s₂.timeFromStart ≤ s₂.timeToEnd := by
      rw [hfix]; exact le_of_lt (lt_of_le_of_lt h₁ h₂)
    show max s₁.timeFromStart s₁.timeToEnd + |s₁.timeFromStart - s₁.timeToEnd| * w
        < max s₂.timeFromStart s₂.timeToEnd + |s₂.timeFromStart - s₂.timeToEnd| * w
    rw [max_eq_right h₁, max_eq_right h₃,
      abs_of_nonpos (sub_nonpos.mpr h₁), abs_of_nonpos (sub_nonpos.mpr h₃),
      hfix]
    nlinarith [mul_lt_mul_of_pos_right h₂ hw]
  · intro t
    show max t.timeFromStart t.timeToEnd + |t.timeFromStart - t.timeToEnd| * 0
      = max t.timeFromStart t.timeToEnd
    ring

/-- Timed candidate `a = 300 s`, `b = 600 s`, used in the C7 witness. -/
def witnessT1 : TimedStation :=
  { station := { name := "静安寺", info := none, source := Source.nearby }
    timeFromStart := 300, timeToEnd := 600
    distanceFromStart := 0, distanceToEnd := 0
    routeFromStart := zeroRoute, routeToEnd := zeroRoute }

/-- Timed candidate `a = 300 s`, `b = 700 s`, used in the C7 witness. -/
def witnessT2 : TimedStation :=
  { station := { name := "静安寺", info := none, source := Source.nearby }
    timeFromStart := 300, timeToEnd := 700
    distanceFromStart := 0, distanceToEnd := 0
    routeFromStart := zeroRoute, routeToEnd := zeroRoute }

/-- Witness for C7 at `a = 300`, `b₁ = 600 < b₂ = 700`, `w = 0.3`. -/
theorem scoreStation_monotone_witness :
    (witnessT2.timeFromStart = witnessT1.timeFromStart
      ∧ witnessT1.timeFromStart ≤ witnessT1.timeToEnd
      ∧ witnessT1.timeToEnd < witnessT2.timeToEnd
      ∧ (0 : ℚ) < 3/10)
    ∧ (scoreStation (3/10) witnessT1).score < (scoreStation (3/10) witnessT2).score :=
  ⟨⟨rfl, by norm_num [witnessT1], by norm_num [witnessT1, witnessT2],
      by norm_num⟩,
    (scoreStation_monotone (3/10) witnessT1 witnessT2
      rfl (by norm_num [witnessT1]) (by norm_num [witnessT1, witnessT2])
      (by norm_num)).1⟩

/-- Timed candidate used in the C4 witness tie (`a = b = 600 s`, name 甲). -/
def tieA : TimedStation :=
  { station := { name := "甲站", info := none, source := Source.nearby }
    timeFromStart := 600, timeToEnd := 600
    distanceFromStart := 0, distanceToEnd := 0
    routeFromStart := zeroRoute, routeToEnd := zeroRoute }

/-- Timed candidate used in the C4 witness tie (`a = b = 600 s`, name 乙). -/
def tieB : TimedStation :=
  { station := { name := "乙站", info := none, source := Source.nearby }
    timeFromStart := 600, timeToEnd := 600
    distanceFromStart := 0, distanceToEnd := 0
    routeFromStart := zeroRoute, routeToEnd := zeroRoute }

/-- Transitivity of the score comparator. -/
theorem scoreLe_trans (a b c : ScoredStation) :
    scoreLe a b = true → scoreLe b c = true → scoreLe a c = true := by
  simp only [scoreLe, decide_eq_true_eq]
  exact le_trans

/-- Totality of the score comparator. -/
theorem scoreLe_total (a b : ScoredStation) : (scoreLe a b || scoreLe b a) = true := by
  simp only [scoreLe, Bool.or_eq_true, decide_eq_true_eq]
  exact le_total a.score b.score

/-- C4: the ranked list is non-decreasing in `score`; truncating it to
`MAX_RESULTS` yields `min MAX_RESULTS n` entries where `n` is the number of
candidates that survived timing (so never more than `MAX_RESULTS`, and fewer
exactly when fewer survived); and the sort is stable: any two scored
candidates listed in discovery order whose scores satisfy `≤` (ties in
particular) keep that relative order in the ranked output. -/
theorem rankStations_sorted_capped_stable (w : ℚ) (l : List TimedStation) :
    List.Pairwise (fun a b => a.score ≤ b.score) (rankStations w l)
    ∧ ((rankStations w l).take MAX_RESULTS).length = min MAX_RESULTS l.length
    ∧ ∀ x y : ScoredStation, x.score ≤ y.score
        → List.Sublist [x, y] (l.map (scoreStation w))
        → List.Sublist [x, y] (rankStations w l) := by
  refine ⟨?_, ?_, ?_⟩
  · exact (List.sorted_mergeSort scoreLe_trans scoreLe_total
      (l.map (scoreStation w))).imp
      (by intro a b h; simpa [scoreLe] using h)
  · rw [List.length_take, rankStations, List.length_mergeSort, List.length_map]
  · intro x y hxy hsub
    refine List.sublist_mergeSort scoreLe_trans scoreLe_total ?_ hsub
    simp [List.pairwise_cons, scoreLe, hxy]

/-- Witness for C4 stability: two distinct candidates with tied score 600,
given in discovery order `[tieA, tieB]`, appear in that order in the ranked
output. -/
theorem rankStations_sorted_capped_stable_witness :
    ((scoreStation BALANCE_WEIGHT tieA).score ≤ (scoreStation BALANCE_WEIGHT tieB).score)
    ∧ List.Sublist [scoreStation BALANCE_WEIGHT tieA, scoreStation BALANCE_WEIGHT tieB]
        (rankStations BALANCE_WEIGHT [tieA, tieB]) := by
  have h1 : (scoreStation BALANCE_WEIGHT tieA).score
      ≤ (scoreStation BALANCE_WEIGHT tieB).score := by
    norm_num [scoreStation, tieA, tieB]
  have h2 : List.Sublist
      [scoreStation BALANCE_WEIGHT tieA, scoreStation BALANCE_WEIGHT tieB]
      ([tieA, tieB].map (scoreStation BALANCE_WEIGHT)) :=
    List.Sublist.refl _
  exact ⟨h1,
    (rankStations_sorted_capped_stable BALANCE_WEIGHT [tieA, tieB]).2.2 _ _ h1 h2⟩

/-- Oracle environment standing for the external `GaodeAPI` collaborator.
`geocode` and `transitRoute` may fail (a rejected promise, modelled by
`Except`); `searchNearby` models `searchNearbySubwayStations`, which never
rejects (it resolves `[]` on `no_data` and on errors, `gaodeApi.js` lines
335-341).  The two per-candidate route queries of `calculateTravelTimes`
take the candidate object itself as origin/destination, so they are separate
oracle fields keyed by the candidate; `none` models a rejected query. -/
structure Env where
  geocode : String → Except String Loc
  transitRoute : Loc → Loc → Except String Route
  searchNearby : Loc → ℚ → List NearStation
  routeFromStart : CandEntry → Option Route
  routeToEnd : CandEntry → Option Route

/-- Batches of size 2, as produced by the loop
`for (let i = 0; i < candidates.length; i += batchSize)` with
`batchSize = 2` and `candidates.slice(i, i + batchSize)`
(`stationFinder.js` lines 158-160). -/
def toBatches2 {α : Type} : List α → List (List α)
  | [] => []
  | [a] => [[a]]
  | a :: b :: rest => [a, b] :: toBatches2 rest

/-- One candidate's timing attempt (`stationFinder.js` lines 162-194): both
route queries must succeed, in which case the candidate is annotated with the
two durations/distances and the raw routes; if either query fails the `catch`
returns `null`, modelled as `none`.  The `delay` calls cannot fail and have no
effect on the value. -/
def tryTime (env : Env) (c : CandEntry) : Option TimedStation :=
  match env.routeFromStart c, env.routeToEnd c with
  | some r1, some r2 =>
      some { station := c
             timeFromStart := r1.duration, timeToEnd := r2.duration
             distanceFromStart := r1.distance, distanceToEnd := r2.distance
             routeFromStart := r1, routeToEnd := r2 }
  | _, _ => none

/-- `StationFinder.calculateTravelTimes` (`stationFinder.js` lines 152-212):
process size-2 batches in order; within a batch, `Promise.all` keeps batch
order, the `null` results are filtered out
(`results.push(...batchResults.filter(r => r !== null))`), and survivors are
appended to the accumulated results. -/
def calculateTravelTimes (env : Env) (candidates : List CandEntry) :
    List TimedStation :=
  (toBatches2 candidates).foldl
    (fun results batch => results ++ (batch.map (tryTime env)).filterMap id) []

/-- The batched loop computes exactly the order-preserving `filterMap` of the
per-candidate timing attempt. -/
theorem calculateTravelTimes_eq_filterMap (env : Env) (candidates : List CandEntry) :
    calculateTravelTimes env candidates = candidates.filterMap (tryTime env) := by
  have hfn : (fun (results : List TimedStation) (batch : List CandEntry) =>
        results ++ (batch.map (tryTime env)).filterMap id)
      = fun results batch => results ++ batch.filterMap (tryTime env) := by
    funext r b
    rw [List.filterMap_map]
    rfl
  have aux : ∀ (l : List CandEntry) (acc : List TimedStation),
      (toBatches2 l).foldl
        (fun results batch => results ++ batch.filterMap (tryTime env)) acc
      = acc ++ l.filterMap (tryTime env) := by
    intro l
    induction l using toBatches2.induct with
    | case1 => intro acc; simp [toBatches2]
    | case2 a =>
        intro acc
        cases h : tryTime env a <;> simp [toBatches2, List.filterMap_cons, h]
    | case3 a b rest ih =>
        intro acc
        simp only [toBatches2, List.foldl_cons]
        rw [ih]
        cases ha : tryTime env a <;> cases hb : tryTime env b <;>
          simp [List.filterMap_cons, ha, hb]
  unfold calculateTravelTimes
  rw [hfn, aux, List.nil_append]

/-- Unfolding of a successful `tryTime`: the output carries its own candidate
and the data of its two successful route queries. -/
theorem tryTime_eq (env : Env) (c : CandEntry) (t : TimedStation)
    (h : tryTime env c = some t) :
    t.station = c
    ∧ env.routeFromStart c = some t.routeFromStart
    ∧ env.routeToEnd c = some t.routeToEnd
    ∧ t.timeFromStart = t.routeFromStart.duration
    ∧ t.timeToEnd = t.routeToEnd.duration := by
  unfold tryTime at h
  split at h
  next r1 r2 heq1 heq2 =>
    obtain rfl := (Option.some.inj h).symm
    exact ⟨rfl, heq1, heq2, rfl, rfl⟩
  next => exact Option.noConfusion h

/-- C8: the aggregator equals the order-preserving `filterMap` of per-candidate
timing (so original candidate order is kept modulo dropped entries and no
error is raised); the stations of the output form a sublist of the input; a
candidate with two successful queries appears in the output with those routes'
durations; and every output entry stems from a candidate whose two queries
both succeeded. -/
theorem calculateTravelTimes_localized (env : Env) (candidates : List CandEntry) :
    calculateTravelTimes env candidates = candidates.filterMap (tryTime env)
    ∧ List.Sublist ((calculateTravelTimes env candidates).map (fun t => t.station))
        candidates
    ∧ (∀ c ∈ candidates, ∀ r1 r2, env.routeFromStart c = some r1
        → env.routeToEnd c = some r2
        → ({ station := c
             timeFromStart := r1.duration, timeToEnd := r2.duration
             distanceFromStart := r1.distance, distanceToEnd := r2.distance
             routeFromStart := r1, routeToEnd := r2 } : TimedStation)
            ∈ calculateTravelTimes env candidates)
    ∧ (∀ t ∈ calculateTravelTimes env candidates,
        t.station ∈ candidates
        ∧ env.routeFromStart t.station = some t.routeFromStart
        ∧ env.routeToEnd t.station = some t.routeToEnd
        ∧ t.timeFromStart = t.routeFromStart.duration
        ∧ t.timeToEnd = t.routeToEnd.duration) := by
  have heq := calculateTravelTimes_eq_filterMap env candidates
  refine ⟨heq, ?_, ?_, ?_⟩
  · rw [heq]
    clear heq
    induction candidates with
    | nil => simp
    | cons c rest ih =>
        cases h : tryTime env c with
        | none => simp only [List.filterMap_cons, h]; exact ih.cons c
        | some t =>
            simp only [List.filterMap_cons, h, List.map_cons]
            rw [(tryTime_eq env c t h).1]
            exact ih.cons₂ c
  · intro c hc r1 r2 h1 h2
    rw [heq, List.mem_filterMap]
    exact ⟨c, hc, by simp [tryTime, h1, h2]⟩
  · intro t ht
    rw [heq, List.mem_filterMap] at ht
    obtain ⟨c, hc, hct⟩ := ht
    obtain ⟨hst, h1, h2, h3, h4⟩ := tryTime_eq env c t hct
    subst hst
    exact ⟨hc, h1, h2, h3, h4⟩

/-- Candidate used in the C8 witness (both queries succeed). -/
def stA : CandEntry := { name := "徐家汇", info := none, source := Source.route }

/-- Candidate used in the C8 witness (queries fail). -/
def stB : CandEntry := { name := "中山公园", info := none, source := Source.route }

/-- Candidate used in the C8 witness (both queries succeed). -/
def stC : CandEntry := { name := "世纪大道", info := none, source := Source.route }

/-- Successful start-side route for the C8 witness. -/
def routeOkA : Route :=
  { duration := 600, walking_distance := 120, distance := 5000, cost := 4
    allSubwayStations := some ["徐家汇"] }

/-- Successful end-side route for the C8 witness. -/
def routeOkB : Route :=
  { duration := 700, walking_distance := 80, distance := 6000, cost := 5
    allSubwayStations := some ["世纪大道"] }

/-- Oracle for the C8 witness: the queries of station 中山公园 fail, all
others succeed. -/
def env8 : Env :=
  { geocode := fun _ => Except.error "unused"
    transitRoute := fun _ _ => Except.error "unused"
    searchNearby := fun _ _ => []
    routeFromStart := fun c => if c.name = "中山公园" then none else some routeOkA
    routeToEnd := fun c => if c.name = "中山公园" then none else some routeOkB }

/-- Witness for C8 on `[stA, stB, stC]` with `stB`'s queries failing. -/
theorem calculateTravelTimes_localized_witness :
    calculateTravelTimes env8 [stA, stB, stC]
      = [stA, stB, stC].filterMap (tryTime env8)
    ∧ ({ station := stA
         timeFromStart := routeOkA.duration, timeToEnd := routeOkB.duration
         distanceFromStart := routeOkA.distance, distanceToEnd := routeOkB.distance
         routeFromStart := routeOkA, routeToEnd := routeOkB } : TimedStation)
        ∈ calculateTravelTimes env8 [stA, stB, stC]
    ∧ List.Sublist
        ((calculateTravelTimes env8 [stA, stB, stC]).map (fun t => t.station))
        [stA, stB, stC] :=
  ⟨(calculateTravelTimes_localized env8 [stA, stB, stC]).1,
    (calculateTravelTimes_localized env8 [stA, stB, stC]).2.2.1 stA (by simp)
      routeOkA routeOkB (by simp [env8, stA]) (by simp [env8, stA]),
    (calculateTravelTimes_localized env8 [stA, stB, stC]).2.1⟩

/-- Route-strategy entry `{ name: stationName, source: 'route' }`
(`stationFinder.js` line 93): no coordinates. -/
def routeEntry (n : String) : CandEntry :=
  { name := n, info := none, source := Source.route }

/-- Midpoint-strategy entry `{ ...station, source: 'nearby' }`
(`stationFinder.js` lines 106-109). -/
def nearbyEntry (s : NearStation) : CandEntry :=
  { name := s.name, info := some s, source := Source.nearby }

/-- Endpoint-strategy entry `{ ...station, source: 'endpoint' }`
(`stationFinder.js` lines 125-128). -/
def endpointEntry (s : NearStation) : CandEntry :=
  { name := s.name, info := some s, source := Source.endpoint }

/-- `candidateSet.has(name)` on the insertion-ordered map, modelled as an
association list. -/
def hasName (m : List CandEntry) (n : String) : Bool :=
  m.any (fun c => c.name == n)

/-- `candidateSet.set(name, entry)`: a JavaScript `Map` keeps the original
insertion position when an existing key is overwritten, otherwise appends. -/
def mapSet (m : List CandEntry) (e : CandEntry) : List CandEntry :=
  if hasName m e.name then m.map (fun c => if c.name == e.name then e else c)
  else m ++ [e]

/-- The guarded insertion of strategies 2 and 3:
`if (!candidateSet.has(station.name)) candidateSet.set(...)`. -/
def addIfAbsent (m : List CandEntry) (e : CandEntry) : List CandEntry :=
  if hasName m e.name then m else m ++ [e]

/-- `StationFinder.calculateMidpoint` (`stationFinder.js` lines 245-250). -/
def calculateMidpoint (loc1 loc2 : Loc) : Loc :=
  { lng := (loc1.lng + loc2.lng) / 2, lat := (loc1.lat + loc2.lat) / 2 }

/-- Merging phase of `StationFinder.extractCandidateStations`
(`stationFinder.js` lines 88-133, before the pruning step): strategy 1 writes
every main-route station name unconditionally (`candidateSet.set`), strategies
2 and 3 insert only names not yet present. -/
def extractMerged (env : Env) (startLocation endLocation : Loc)
    (mainRoute : Route) : List CandEntry :=
  let step1 := match mainRoute.allSubwayStations with
    | some names => names.foldl (fun m n => mapSet m (routeEntry n)) []
    | none => []
  let midPoint := calculateMidpoint startLocation endLocation
  let nearbyStations := env.searchNearby midPoint SEARCH_RADIUS
  let step2 := nearbyStations.foldl (fun m s => addIfAbsent m (nearbyEntry s)) step1
  let startNearby := env.searchNearby startLocation 2000
  let endNearby := env.searchNearby endLocation 2000
  (startNearby ++ endNearby).foldl (fun m s => addIfAbsent m (endpointEntry s)) step2

/-- The candidate entries in the order the three strategies discover them:
route names first, then midpoint-nearby stations, then the stations near the
start and near the end. -/
def discoveryStream (env : Env) (startLocation endLocation : Loc)
    (mainRoute : Route) : List CandEntry :=
  (match mainRoute.allSubwayStations with
    | some names => names.map routeEntry
    | none => [])
  ++ (env.searchNearby (calculateMidpoint startLocation endLocation)
        SEARCH_RADIUS).map nearbyEntry
  ++ (env.searchNearby startLocation 2000
      ++ env.searchNearby endLocation 2000).map endpointEntry

/-- Spec-side merge (claim C5's wording): the first writer for a given name
wins and later discoveries of the same name are dropped. -/
def firstWriterMerge : List CandEntry → List CandEntry
  | [] => []
  | c :: rest =>
      c :: firstWriterMerge (rest.filter (fun x => !(c.name == x.name)))
termination_by l => l.length
decreasing_by
  simp only [List.length_cons]
  exact Nat.lt_succ_of_le (List.length_filter_le _ _)

/-- Members of the spec-side merge come from the stream. -/
theorem mem_firstWriterMerge {c : CandEntry} :
    ∀ {s : List CandEntry}, c ∈ firstWriterMerge s → c ∈ s := by
  intro s
  induction s using firstWriterMerge.induct with
  | case1 => simp [firstWriterMerge]
  | case2 d rest ih =>
      rw [firstWriterMerge]
      intro h
      rcases List.mem_cons.mp h with h | h
      · exact h ▸ List.mem_cons_self d rest
      · exact List.mem_cons_of_mem d (List.mem_of_mem_filter (ih h))

/-- The spec-side merge has pairwise distinct names. -/
theorem firstWriterMerge_nodup_names :
    ∀ (s : List CandEntry),
      List.Pairwise (fun a b => a.name ≠ b.name) (firstWriterMerge s) := by
  intro s
  induction s using firstWriterMerge.induct with
  | case1 => simp [firstWriterMerge]
  | case2 d rest ih =>
      rw [firstWriterMerge]
      refine List.pairwise_cons.mpr ⟨?_, ih⟩
      intro b hb
      have hbf := mem_firstWriterMerge hb
      have := List.of_mem_filter hbf
      simpa using this

/-- On an accumulator holding only canonical route entries, the unconditional
`Map.set` of strategy 1 behaves like the guarded insertion: overwriting a
route entry with the identically-built route entry changes nothing. -/
theorem mapSet_route_eq (acc : List CandEntry) (n : String)
    (hinv : ∀ c ∈ acc, c = routeEntry c.name) :
    mapSet acc (routeEntry n) = addIfAbsent acc (routeEntry n) := by
  unfold mapSet addIfAbsent
  by_cases h : hasName acc (routeEntry n).name
  · rw [if_pos h, if_pos h]
    have hpt : ∀ c ∈ acc,
        (if c.name == (routeEntry n).name then routeEntry n else c) = c := by
      intro c hc
      by_cases hc2 : (c.name == (routeEntry n).name) = true
      · rw [if_pos hc2]
        have hn : c.name = n := by simpa [routeEntry] using hc2
        rw [hinv c hc, hn]
      · rw [if_neg hc2]
    calc acc.map (fun c => if c.name == (routeEntry n).name then routeEntry n else c)
        = acc.map id := List.map_congr_left (by intro c hc; simpa using hpt c hc)
      _ = acc := List.map_id acc
  · rw [if_neg h, if_neg h]

/-- The canonical-route-entry invariant survives a guarded insertion of a
route entry. -/
theorem addIfAbsent_route_inv (acc : List CandEntry) (n : String)
    (hinv : ∀ c ∈ acc, c = routeEntry c.name) :
    ∀ c ∈ addIfAbsent acc (routeEntry n), c = routeEntry c.name := by
  intro c hc
  unfold addIfAbsent at hc
  by_cases h : hasName acc (routeEntry n).name
  · rw [if_pos h] at hc
    exact hinv c hc
  · rw [if_neg h] at hc
    rcases List.mem_append.mp hc with h2 | h2
    · exact hinv c h2
    · have hc3 : c = routeEntry n := by simpa using h2
      subst hc3
      rfl

/-- Strategy 1's fold of unconditional `Map.set`s equals the fold of guarded
insertions, since all its entries are canonical route entries. -/
theorem routeFold_eq : ∀ (names : List String) (acc : List CandEntry),
    (∀ c ∈ acc, c = routeEntry c.name) →
    names.foldl (fun m n => mapSet m (routeEntry n)) acc
      = names.foldl (fun m n => addIfAbsent m (routeEntry n)) acc := by
  intro names
  induction names with
  | nil => intro acc _; rfl
  | cons n rest ih =>
      intro acc hinv
      simp only [List.foldl_cons]
      rw [mapSet_route_eq acc n hinv]
      exact ih _ (addIfAbsent_route_inv acc n hinv)

/-- Membership test on an appended accumulator. -/
theorem hasName_append (acc : List CandEntry) (c : CandEntry) (nm : String) :
    hasName (acc ++ [c]) nm = (hasName acc nm || (c.name == nm)) := by
  unfold hasName
  rw [List.any_append]
  simp

/-- A fold of guarded insertions is the accumulator followed by the
first-writer merge of the not-yet-present part of the stream. -/
theorem foldl_addIfAbsent_eq : ∀ (s acc : List CandEntry),
    s.foldl addIfAbsent acc
      = acc ++ firstWriterMerge (s.filter (fun c => !(hasName acc c.name))) := by
  intro s
  induction s with
  | nil => intro acc; simp [firstWriterMerge]
  | cons c rest ih =>
      intro acc
      by_cases h : hasName acc c.name
      · have h1 : addIfAbsent acc c = acc := by
          unfold addIfAbsent; rw [if_pos h]
        have h2 : List.filter (fun x => !hasName acc x.name) (c :: rest)
            = List.filter (fun x => !hasName acc x.name) rest := by
          simp [List.filter_cons, h]
        rw [List.foldl_cons, h1, h2, ih acc]
      · have hfalse : hasName acc c.name = false := by simpa using h
        have h1 : addIfAbsent acc c = acc ++ [c] := by
          unfold addIfAbsent; rw [if_neg h]
        have h2 : List.filter (fun x => !hasName acc x.name) (c :: rest)
            = c :: List.filter (fun x => !hasName acc x.name) rest := by
          simp [List.filter_cons, hfalse]
        have h3 : List.filter (fun x => !hasName (acc ++ [c]) x.name) rest
            = List.filter (fun x => !(c.name == x.name))
                (List.filter (fun x => !hasName acc x.name) rest) := by
          rw [List.filter_filter]
          refine List.filter_congr ?_
          intro x _
          rw [hasName_append]
          cases hasName acc x.name <;> cases hc : (c.name == x.name) <;> simp
        rw [List.foldl_cons, h1, h2, ih (acc ++ [c]), firstWriterMerge, h3,
          List.append_assoc, List.singleton_append]

/-- C5: the merged candidate set has pairwise distinct names, and it is
exactly the first-writer-wins merge of the discovery stream (route names,
then midpoint-nearby stations, then endpoint-nearby stations): for each name
the retained entry is the one built by the first strategy that produced that
name, and later duplicates are dropped. -/
theorem extractMerged_dedup_firstWriter (env : Env) (s e : Loc) (main : Route) :
    List.Pairwise (fun a b => a.name ≠ b.name) (extractMerged env s e main)
    ∧ extractMerged env s e main
        = firstWriterMerge (discoveryStream env s e main) := by
  have hroute : (match main.allSubwayStations with
      | some names => names.foldl (fun m n => mapSet m (routeEntry n)) []
      | none => ([] : List CandEntry))
      = (match main.allSubwayStations with
        | some names => names.map routeEntry
        | none => ([] : List CandEntry)).foldl addIfAbsent [] := by
    cases main.allSubwayStations with
    | none => rfl
    | some names =>
        show names.foldl (fun m n => mapSet m (routeEntry n)) []
          = (names.map routeEntry).foldl addIfAbsent []
        rw [routeFold_eq names [] (by simp), List.foldl_map]
  have hmap : ∀ (f : NearStation → CandEntry) (l : List NearStation)
      (acc : List CandEntry),
      l.foldl (fun m st => addIfAbsent m (f st)) acc
        = (l.map f).foldl addIfAbsent acc := by
    intro f l acc
    rw [List.foldl_map]
  have heq : extractMerged env s e main
      = firstWriterMerge (discoveryStream env s e main) := by
    show ((env.searchNearby s 2000 ++ env.searchNearby e 2000).foldl
        (fun m st => addIfAbsent m (endpointEntry st))
        ((env.searchNearby (calculateMidpoint s e) SEARCH_RADIUS).foldl
          (fun m st => addIfAbsent m (nearbyEntry st))
          (match main.allSubwayStations with
            | some names => names.foldl (fun m n => mapSet m (routeEntry n)) []
            | none => [])))
      = firstWriterMerge (discoveryStream env s e main)
    rw [hroute, hmap nearbyEntry, hmap endpointEntry, ← List.foldl_append,
      ← List.foldl_append, foldl_addIfAbsent_eq]
    unfold discoveryStream
    simp [hasName]
  exact ⟨heq ▸ firstWriterMerge_nodup_names _, heq⟩

/-- `Math.atan2 y x`, modelled as the argument of the complex number
`x + i y` (identical on the values reachable from `calculateDistance`,
where both arguments are square roots, hence non-negative). -/
noncomputable def jsAtan2 (y x : ℝ) : ℝ := Complex.arg ⟨x, y⟩

/-- The intermediate value `a` of `StationFinder.calculateDistance`
(`stationFinder.js` lines 263-265), with the `lat1`, `lat2`, `deltaLat`,
`deltaLng` bindings of lines 258-261 substituted in:
`sin(Δlat/2)² + cos(lat1)·cos(lat2)·sin(Δlng/2)²` in radians. -/
noncomputable def haversineTerm (loc1 loc2 : Loc) : ℝ :=
  Real.sin ((((loc2.lat : ℝ) - (loc1.lat : ℝ)) * Real.pi / 180) / 2)
    * Real.sin ((((loc2.lat : ℝ) - (loc1.lat : ℝ)) * Real.pi / 180) / 2)
  + Real.cos ((loc1.lat : ℝ) * Real.pi / 180)
    * Real.cos ((loc2.lat : ℝ) * Real.pi / 180)
    * Real.sin ((((loc2.lng : ℝ) - (loc1.lng : ℝ)) * Real.pi / 180) / 2)
    * Real.sin ((((loc2.lng : ℝ) - (loc1.lng : ℝ)) * Real.pi / 180) / 2)

/-- `StationFinder.calculateDistance` (`stationFinder.js` lines 256-270):
Haversine distance with Earth radius `R = 6371000` m and
`c = 2 · atan2(√a, √(1−a))`. -/
noncomputable def calculateDistance (loc1 loc2 : Loc) : ℝ :=
  6371000 * (2 * jsAtan2 (Real.sqrt (haversineTerm loc1 loc2))
    (Real.sqrt (1 - haversineTerm loc1 loc2)))

/-- The haversine term is symmetric in its two locations. -/
theorem haversineTerm_symm (loc1 loc2 : Loc) :
    haversineTerm loc1 loc2 = haversineTerm loc2 loc1 := by
  have hneg : ∀ x y : ℝ,
      Real.sin ((x - y) * Real.pi / 180 / 2)
      = -Real.sin ((y - x) * Real.pi / 180 / 2) := by
    intro x y
    have h : (x - y) * Real.pi / 180 / 2 = -((y - x) * Real.pi / 180 / 2) := by
      ring
    rw [h, Real.sin_neg]
  unfold haversineTerm
  rw [hneg ((loc1.lat : ℝ)) ((loc2.lat : ℝ)), hneg ((loc1.lng : ℝ)) ((loc2.lng : ℝ))]
  ring

/-- The haversine term vanishes on identical locations. -/
theorem haversineTerm_self (loc : Loc) : haversineTerm loc loc = 0 := by
  unfold haversineTerm
  simp

/-- The distance of a location to itself is exactly `0`:
`a = 0`, so `c = 2 · atan2(0, 1) = 0`. -/
theorem calculateDistance_self (loc : Loc) : calculateDistance loc loc = 0 := by
  unfold calculateDistance jsAtan2
  rw [haversineTerm_self, Real.sqrt_zero, sub_zero, Real.sqrt_one]
  have h1 : (⟨1, 0⟩ : ℂ) = 1 := by
    apply Complex.ext <;> simp
  rw [h1, Complex.arg_one]
  ring

/-- C10: `calculateDistance` is symmetric and non-negative. -/
theorem calculateDistance_symm_nonneg (loc1 loc2 : Loc) :
    calculateDistance loc1 loc2 = calculateDistance loc2 loc1
    ∧ 0 ≤ calculateDistance loc1 loc2 := by
  constructor
  · unfold calculateDistance
    rw [haversineTerm_symm]
  · unfold calculateDistance jsAtan2
    have harg : 0 ≤ Complex.arg ⟨Real.sqrt (1 - haversineTerm loc1 loc2),
        Real.sqrt (haversineTerm loc1 loc2)⟩ := by
      rw [Complex.arg_nonneg_iff]
      exact Real.sqrt_nonneg _
    have h2 : (0 : ℝ) ≤ 2 * Complex.arg ⟨Real.sqrt (1 - haversineTerm loc1 loc2),
        Real.sqrt (haversineTerm loc1 loc2)⟩ := by linarith
    have h3 : (0 : ℝ) ≤ 6371000 := by norm_num
    exact mul_nonneg h3 h2

/-- The `distanceToMid` annotation added in the pruning branch
(`stationFinder.js` lines 138-141): `calculateDistance(station, midPoint)`.
A route-sourced candidate has no `lng`/`lat` fields, so the JavaScript
computation is on `undefined` and yields `NaN`, modelled as `none`. -/
noncomputable def distanceToMid (mid : Loc) (c : CandEntry) : Option ℝ :=
  c.info.map (fun st => calculateDistance { lng := st.lng, lat := st.lat } mid)

/-- Comparator of `.sort((a, b) => a.distanceToMid - b.distanceToMid)`.
When either distance is `NaN` the JavaScript comparator returns `NaN` and the
resulting order is unspecified by ECMAScript; the model then makes an
arbitrary total choice (`none` first), which no theorem below relies on:
claims about the pruning order carry the hypothesis that every candidate has
coordinates. -/
noncomputable def distLe (a b : CandEntry × Option ℝ) : Bool :=
  match a.2, b.2 with
  | some x, some y => decide (x ≤ y)
  | none, _ => true
  | some _, none => false

/-- The `.map` of the pruning branch pairing each candidate with its
`distanceToMid`. -/
noncomputable def withDist (mid : Loc) (m : List CandEntry) :
    List (CandEntry × Option ℝ) :=
  m.map (fun c => (c, distanceToMid mid c))

/-- The pruning branch of `extractCandidateStations` (`stationFinder.js`
lines 136-143): annotate with `distanceToMid`, stable-sort ascending by it,
keep the first `MAX_CANDIDATES`. -/
noncomputable def pruneCandidates (mid : Loc) (m : List CandEntry) :
    List (CandEntry × Option ℝ) :=
  ((withDist mid m).mergeSort distLe).take MAX_CANDIDATES

/-- `StationFinder.extractCandidateStations` (`stationFinder.js` lines
87-147): the merged candidate set, pruned when it exceeds `MAX_CANDIDATES`.
The source returns the pruned entries still carrying their diagnostic
`distanceToMid` field; the model drops that field here (no downstream code
of the pipeline reads it), and `pruneCandidates` retains it for the claims
about pruning. -/
noncomputable def extractCandidateStations (env : Env)
    (startLocation endLocation : Loc) (mainRoute : Route) : List CandEntry :=
  let candidates := extractMerged env startLocation endLocation mainRoute
  if MAX_CANDIDATES < candidates.length then
    (pruneCandidates (calculateMidpoint startLocation endLocation)
      candidates).map Prod.fst
  else candidates

/-- Transitivity of the distance comparator. -/
theorem distLe_trans (a b c : CandEntry × Option ℝ) :
    distLe a b = true → distLe b c = true → distLe a c = true := by
  unfold distLe
  rcases a with ⟨a1, _ | x⟩ <;> rcases b with ⟨b1, _ | y⟩ <;>
    rcases c with ⟨c1, _ | z⟩ <;> simp
  exact le_trans

/-- Totality of the distance comparator. -/
theorem distLe_total (a b : CandEntry × Option ℝ) :
    (distLe a b || distLe b a) = true := by
  unfold distLe
  rcases a with ⟨a1, _ | x⟩ <;> rcases b with ⟨b1, _ | y⟩ <;> simp
  exact le_total x y

/-- Conversion of a true comparator result to the real comparison, for pairs
whose distances both exist. -/
theorem distLe_some (p q : CandEntry × Option ℝ) (h : distLe p q = true)
    (x y : ℝ) (hx : p.2 = some x) (hy : q.2 = some y) : x ≤ y := by
  simp only [distLe, hx, hy, decide_eq_true_eq] at h
  exact h

/-- C6: when the merged set exceeds `MAX_CANDIDATES` and every merged
candidate carries coordinates, the pruning branch keeps exactly
`MAX_CANDIDATES` entries; those are what `extractCandidateStations` returns;
each kept entry is annotated with its Haversine distance to the midpoint; the
kept entries are ordered ascending by that distance; the annotated merged set
splits (as a permutation) into the kept entries and the dropped ones; every
kept entry's distance is at most every dropped entry's distance; and the
Haversine distance between identical coordinates is exactly `0`. -/
theorem pruneCandidates_closest (env : Env) (s e : Loc) (main : Route)
    (hlen : MAX_CANDIDATES < (extractMerged env s e main).length)
    (hinfo : ∀ c ∈ extractMerged env s e main, c.info.isSome) :
    (pruneCandidates (calculateMidpoint s e) (extractMerged env s e main)).length
        = MAX_CANDIDATES
    ∧ extractCandidateStations env s e main
        = (pruneCandidates (calculateMidpoint s e)
            (extractMerged env s e main)).map Prod.fst
    ∧ (∀ p ∈ pruneCandidates (calculateMidpoint s e) (extractMerged env s e main),
        ∃ st, p.1.info = some st
          ∧ p.2 = some (calculateDistance { lng := st.lng, lat := st.lat }
              (calculateMidpoint s e)))
    ∧ List.Pairwise (fun p q : CandEntry × Option ℝ =>
        ∀ x y : ℝ, p.2 = some x → q.2 = some y → x ≤ y)
        (pruneCandidates (calculateMidpoint s e) (extractMerged env s e main))
    ∧ List.Perm (withDist (calculateMidpoint s e) (extractMerged env s e main))
        (pruneCandidates (calculateMidpoint s e) (extractMerged env s e main)
          ++ ((withDist (calculateMidpoint s e)
              (extractMerged env s e main)).mergeSort distLe).drop MAX_CANDIDATES)
    ∧ (∀ p ∈ pruneCandidates (calculateMidpoint s e) (extractMerged env s e main),
        ∀ q ∈ ((withDist (calculateMidpoint s e)
            (extractMerged env s e main)).mergeSort distLe).drop MAX_CANDIDATES,
        ∀ x y : ℝ, p.2 = some x → q.2 = some y → x ≤ y)
    ∧ ∀ loc : Loc, calculateDistance loc loc = 0 := by
  have hp : pruneCandidates (calculateMidpoint s e) (extractMerged env s e main)
      = (((withDist (calculateMidpoint s e)
          (extractMerged env s e main)).mergeSort distLe).take MAX_CANDIDATES) := rfl
  have hsortlen : ((withDist (calculateMidpoint s e)
      (extractMerged env s e main)).mergeSort distLe).length
      = (extractMerged env s e main).length := by
    rw [List.length_mergeSort]
    unfold withDist
    rw [List.length_map]
  have hsorted := List.sorted_mergeSort distLe_trans distLe_total
    (withDist (calculateMidpoint s e) (extractMerged env s e main))
  refine ⟨?_, ?_, ?_, ?_, ?_, ?_, calculateDistance_self⟩
  · rw [hp, List.length_take, hsortlen]
    exact Nat.min_eq_left (Nat.le_of_lt hlen)
  · show (if MAX_CANDIDATES < (extractMerged env s e main).length then
        (pruneCandidates (calculateMidpoint s e)
          (extractMerged env s e main)).map Prod.fst
      else extractMerged env s e main)
      = (pruneCandidates (calculateMidpoint s e)
          (extractMerged env s e main)).map Prod.fst
    rw [if_pos hlen]
  · intro p hpmem
    rw [hp] at hpmem
    have h1 : p ∈ (withDist (calculateMidpoint s e)
        (extractMerged env s e main)).mergeSort distLe :=
      List.take_subset _ _ hpmem
    have h2 : p ∈ withDist (calculateMidpoint s e) (extractMerged env s e main) :=
      (List.mergeSort_perm _ _).subset h1
    obtain ⟨c, hc, rfl⟩ := List.mem_map.mp h2
    obtain ⟨st, hst⟩ := Option.isSome_iff_exists.mp (hinfo c hc)
    exact ⟨st, hst, by simp [distanceToMid, hst]⟩
  · rw [hp]
    refine (List.Pairwise.sublist (List.take_sublist _ _) hsorted).imp ?_
    intro p q h x y hx hy
    exact distLe_some p q h x y hx hy
  · rw [hp, List.take_append_drop]
    exact (List.mergeSort_perm _ _).symm
  · intro p hpmem q hqmem x y hx hy
    rw [hp] at hpmem
    have hsplit := hsorted
    rw [← List.take_append_drop MAX_CANDIDATES
      ((withDist (calculateMidpoint s e)
        (extractMerged env s e main)).mergeSort distLe)] at hsplit
    have hcross := (List.pairwise_append.mp hsplit).2.2
    exact distLe_some p q (hcross p hpmem q hqmem) x y hx hy

/-- If no merged candidate carries coordinates, every pruned entry's
`distanceToMid` is `NaN` (`none`), whatever the comparator does. -/
theorem pruneCandidates_none_of_no_info (mid : Loc) (m : List CandEntry)
    (h : ∀ c ∈ m, c.info = none) :
    ∀ p ∈ pruneCandidates mid m, p.2 = none := by
  intro p hpmem
  have h1 : p ∈ (withDist mid m).mergeSort distLe :=
    List.take_subset _ _ hpmem
  have h2 : p ∈ withDist mid m := (List.mergeSort_perm _ _).subset h1
  obtain ⟨c, hc, rfl⟩ := List.mem_map.mp h2
  simp [distanceToMid, h c hc]

/-- Start location for the C6 example runs. -/
def locX1 : Loc := { lng := 121, lat := 31 }

/-- End location for the C6 example runs. -/
def locX2 : Loc := { lng := 122, lat := 32 }

/-- Main route of the C6 counterexample: eleven subway stations on the route,
so the merged set exceeds `MAX_CANDIDATES` with route-sourced entries only. -/
def mainC6x : Route :=
  { duration := 3600, walking_distance := 500, distance := 20000, cost := 6
    allSubwayStations := some ["站一", "站二", "站三", "站四", "站五", "站六",
      "站七", "站八", "站九", "站十", "站十一"] }

/-- Oracle of the C6 counterexample: every nearby search comes back empty
(which `searchNearbySubwayStations` legitimately produces on `no_data` or on
an error), so all candidates are route-sourced. -/
def envC6x : Env :=
  { geocode := fun _ => Except.ok locX1
    transitRoute := fun _ _ => Except.ok mainC6x
    searchNearby := fun _ _ => []
    routeFromStart := fun _ => none
    routeToEnd := fun _ => none }

/-- C6 counterexample: a merged set of eleven route-sourced candidates (no
coordinates) exceeds `MAX_CANDIDATES`, yet every `distanceToMid` the code
computes is `NaN` (`none`), so the retained set is not "the closest by
Haversine distance" — no candidate has a Haversine distance at all, and the
`NaN`-valued comparator leaves the sort order unspecified. -/
theorem pruneCandidates_closest_cex :
    MAX_CANDIDATES < (extractMerged envC6x locX1 locX2 mainC6x).length
    ∧ ∀ p ∈ pruneCandidates (calculateMidpoint locX1 locX2)
        (extractMerged envC6x locX1 locX2 mainC6x), p.2 = none := by
  constructor
  · decide
  · exact pruneCandidates_none_of_no_info _ _ (by decide)

/-- Eleven coordinate-carrying stations for the C6 witness. -/
def nearList : List NearStation :=
  [⟨"甲", "", 121, 31, 100⟩, ⟨"乙", "", 1211/10, 311/10, 200⟩,
   ⟨"丙", "", 1212/10, 312/10, 300⟩, ⟨"丁", "", 1213/10, 313/10, 400⟩,
   ⟨"戊", "", 1214/10, 314/10, 500⟩, ⟨"己", "", 1215/10, 315/10, 600⟩,
   ⟨"庚", "", 1216/10, 316/10, 700⟩, ⟨"辛", "", 1217/10, 317/10, 800⟩,
   ⟨"壬", "", 1218/10, 318/10, 900⟩, ⟨"癸", "", 1219/10, 319/10, 1000⟩,
   ⟨"子", "", 122, 32, 1100⟩]

/-- Main route of the C6 witness: no station list, so all candidates come
from the nearby searches and carry coordinates. -/
def mainC6w : Route :=
  { duration := 1200, walking_distance := 200, distance := 8000, cost := 4
    allSubwayStations := none }

/-- Oracle of the C6 witness: every nearby search returns the same eleven
coordinate-carrying stations. -/
def envC6w : Env :=
  { geocode := fun _ => Except.ok locX1
    transitRoute := fun _ _ => Except.ok mainC6w
    searchNearby := fun _ _ => nearList
    routeFromStart := fun _ => none
    routeToEnd := fun _ => none }

/-- Witness for C6: eleven coordinate-carrying merged candidates, pruned to
exactly `MAX_CANDIDATES`. -/
theorem pruneCandidates_closest_witness :
    (MAX_CANDIDATES < (extractMerged envC6w locX1 locX2 mainC6w).length
      ∧ ∀ c ∈ extractMerged envC6w locX1 locX2 mainC6w, c.info.isSome)
    ∧ (pruneCandidates (calculateMidpoint locX1 locX2)
        (extractMerged envC6w locX1 locX2 mainC6w)).length = MAX_CANDIDATES :=
  ⟨⟨by decide, by decide⟩,
    (pruneCandidates_closest envC6w locX1 locX2 mainC6w (by decide) (by decide)).1⟩

/-- Result object returned by `StationFinder.findMiddleStations`
(`stationFinder.js` lines 63-75): start and end with their addresses, the
main route, the truncated recommendation list and the candidate count. -/
structure FindResult where
  startAddress : String
  startLocation : Loc
  endAddress : String
  endLocation : Loc
  mainRoute : Route
  recommendations : List ScoredStation
  totalCandidates : Nat
deriving DecidableEq

/-- `StationFinder.findMiddleStations` (`stationFinder.js` lines 18-81):
geocode both addresses, fetch the main route, extract candidates, throw
`'未找到合适的地铁站候选'` when there are none, otherwise time, rank,
truncate to `MAX_RESULTS` and return.  A rejected promise of a step is
modelled by `Except.error`; the `try`/`catch` at lines 19/77 only logs and
rethrows, so it does not alter the value. -/
noncomputable def findMiddleStations (env : Env) (startAddress endAddress : String) :
    Except String FindResult :=
  match env.geocode startAddress with
  | Except.error err => Except.error err
  | Except.ok startLocation =>
    match env.geocode endAddress with
    | Except.error err => Except.error err
    | Except.ok endLocation =>
      match env.transitRoute startLocation endLocation with
      | Except.error err => Except.error err
      | Except.ok mainRoute =>
        let candidates := extractCandidateStations env startLocation endLocation
          mainRoute
        if candidates.length = 0 then Except.error "未找到合适的地铁站候选"
        else
          let stationsWithTime := calculateTravelTimes env candidates
          let rankedStations := rankStations BALANCE_WEIGHT stationsWithTime
          let topStations := rankedStations.take MAX_RESULTS
          Except.ok { startAddress := startAddress, startLocation := startLocation
                      endAddress := endAddress, endLocation := endLocation
                      mainRoute := mainRoute
                      recommendations := topStations
                      totalCandidates := candidates.length }

/-- When the three discovery strategies all come back empty, the merge is
empty. -/
theorem extractMerged_empty (env : Env) (s e : Loc) (main : Route)
    (hr : main.allSubwayStations = none ∨ main.allSubwayStations = some [])
    (h1 : env.searchNearby (calculateMidpoint s e) SEARCH_RADIUS = [])
    (h2 : env.searchNearby s 2000 = [])
    (h3 : env.searchNearby e 2000 = []) :
    extractMerged env s e main = [] := by
  show ((env.searchNearby s 2000 ++ env.searchNearby e 2000).foldl
      (fun m st => addIfAbsent m (endpointEntry st))
      ((env.searchNearby (calculateMidpoint s e) SEARCH_RADIUS).foldl
        (fun m st => addIfAbsent m (nearbyEntry st))
        (match main.allSubwayStations with
          | some names => names.foldl (fun m n => mapSet m (routeEntry n)) []
          | none => []))) = []
  rw [h1, h2, h3]
  rcases hr with hr | hr <;> rw [hr] <;> rfl

/-- Reduction of the pipeline once the three external phases have
succeeded. -/
theorem findMiddleStations_unfold (env : Env) (sa ea : String) (s e : Loc)
    (main : Route)
    (hs : env.geocode sa = Except.ok s) (he : env.geocode ea = Except.ok e)
    (hm : env.transitRoute s e = Except.ok main) :
    findMiddleStations env sa ea
      = (if (extractCandidateStations env s e main).length = 0
          then Except.error "未找到合适的地铁站候选"
          else Except.ok
            { startAddress := sa, startLocation := s,
              endAddress := ea, endLocation := e, mainRoute := main,
              recommendations := (rankStations BALANCE_WEIGHT
                (calculateTravelTimes env
                  (extractCandidateStations env s e main))).take MAX_RESULTS,
              totalCandidates := (extractCandidateStations env s e main).length }) := by
  unfold findMiddleStations
  simp only [hs, he, hm]

/-- C9: with geocoding and the main route successful, if the three discovery
strategies all yield nothing then the pipeline fails with the
`NoCandidatesFound` error; and any successful run has a non-zero candidate
count and a non-empty candidate sequence. -/
theorem findMiddleStations_no_candidates (env : Env) (sa ea : String)
    (s e : Loc) (main : Route)
    (hs : env.geocode sa = Except.ok s) (he : env.geocode ea = Except.ok e)
    (hm : env.transitRoute s e = Except.ok main) :
    ((main.allSubwayStations = none ∨ main.allSubwayStations = some [])
      → env.searchNearby (calculateMidpoint s e) SEARCH_RADIUS = []
      → env.searchNearby s 2000 = []
      → env.searchNearby e 2000 = []
      → findMiddleStations env sa ea = Except.error "未找到合适的地铁站候选")
    ∧ ∀ r, findMiddleStations env sa ea = Except.ok r
        → r.totalCandidates ≠ 0 ∧ extractCandidateStations env s e main ≠ [] := by
  have hunfold := findMiddleStations_unfold env sa ea s e main hs he hm
  constructor
  · intro hr h1 h2 h3
    have hme : extractMerged env s e main = [] :=
      extractMerged_empty env s e main hr h1 h2 h3
    have hce : extractCandidateStations env s e main = [] := by
      show (if MAX_CANDIDATES < (extractMerged env s e main).length then
          (pruneCandidates (calculateMidpoint s e)
            (extractMerged env s e main)).map Prod.fst
        else extractMerged env s e main) = []
      rw [hme]
      simp
    rw [hunfold, hce]
    simp
  · intro r hok
    rw [hunfold] at hok
    by_cases hz : (extractCandidateStations env s e main).length = 0
    · rw [if_pos hz] at hok
      exact absurd hok (by simp)
    · rw [if_neg hz] at hok
      have hr : ({ startAddress := sa, startLocation := s,
                   endAddress := ea, endLocation := e, mainRoute := main,
                   recommendations := (rankStations BALANCE_WEIGHT
                     (calculateTravelTimes env
                       (extractCandidateStations env s e main))).take MAX_RESULTS,
                   totalCandidates :=
                     (extractCandidateStations env s e main).length }
            : FindResult) = r := Except.ok.inj hok
      constructor
      · rw [← hr]
        exact hz
      · intro hnil
        exact hz (by rw [hnil]; rfl)

/-- Location of the C9 witness. -/
def locC9 : Loc := { lng := 1215/10, lat := 312/10 }

/-- Main route of the C9 witness: an empty station list. -/
def mainC9 : Route :=
  { duration := 2400, walking_distance := 300, distance := 15000, cost := 5
    allSubwayStations := some [] }

/-- Oracle of the C9 witness: all discovery strategies yield nothing. -/
def envC9 : Env :=
  { geocode := fun _ => Except.ok locC9
    transitRoute := fun _ _ => Except.ok mainC9
    searchNearby := fun _ _ => []
    routeFromStart := fun _ => none
    routeToEnd := fun _ => none }

/-- Witness for C9: a run whose three strategies yield nothing fails with
the `NoCandidatesFound` error. -/
theorem findMiddleStations_no_candidates_witness :
    (envC9.geocode "起点" = Except.ok locC9
      ∧ envC9.transitRoute locC9 locC9 = Except.ok mainC9
      ∧ mainC9.allSubwayStations = some []
      ∧ envC9.searchNearby (calculateMidpoint locC9 locC9) SEARCH_RADIUS = [])
    ∧ findMiddleStations envC9 "起点" "终点"
        = Except.error "未找到合适的地铁站候选" :=
  ⟨⟨rfl, rfl, rfl, rfl⟩,
    (findMiddleStations_no_candidates envC9 "起点" "终点" locC9 locC9 mainC9
      rfl rfl rfl).1 (Or.inr rfl) rfl rfl rfl⟩

/-- C2 (amended): when the candidate set is non-empty but travel-time
annotation succeeds for zero candidates, the pipeline does NOT fail: it
returns a successful result with an empty recommendations list.  The source
has no emptiness check after `calculateTravelTimes`; its only
`NoCandidatesFound` check (line 44) runs before timing. -/
theorem findMiddleStations_empty_timing_ok (env : Env) (sa ea : String)
    (s e : Loc) (main : Route)
    (hs : env.geocode sa = Except.ok s) (he : env.geocode ea = Except.ok e)
    (hm : env.transitRoute s e = Except.ok main)
    (hne : extractCandidateStations env s e main ≠ [])
    (hz : calculateTravelTimes env (extractCandidateStations env s e main) = []) :
    findMiddleStations env sa ea
      = Except.ok
          { startAddress := sa, startLocation := s,
            endAddress := ea, endLocation := e, mainRoute := main,
            recommendations := [],
            totalCandidates := (extractCandidateStations env s e main).length }
    ∧ (extractCandidateStations env s e main).length ≠ 0 := by
  have hlen : (extractCandidateStations env s e main).length ≠ 0 := by
    simpa [List.length_eq_zero] using hne
  refine ⟨?_, hlen⟩
  rw [findMiddleStations_unfold env sa ea s e main hs he hm, if_neg hlen, hz]
  simp [rankStations]

/-- Geocoded location of the C2 example run. -/
def locS2 : Loc := { lng := 1214/10, lat := 313/10 }

/-- Main route of the C2 example run: no extracted station names. -/
def mainC2 : Route :=
  { duration := 1800, walking_distance := 100, distance := 9000, cost := 5
    allSubwayStations := none }

/-- The single nearby station of the C2 example run. -/
def nearW : NearStation :=
  { name := "豫园", address := "上海市黄浦区", lng := 1215/10, lat := 312/10
    distance := 800 }

/-- Oracle of the C2 example run: geocoding and the main route succeed, the
nearby searches find one station, and both of its per-candidate route
queries fail. -/
def envC2 : Env :=
  { geocode := fun _ => Except.ok locS2
    transitRoute := fun _ _ => Except.ok mainC2
    searchNearby := fun _ _ => [nearW]
    routeFromStart := fun _ => none
    routeToEnd := fun _ => none }

/-- C2 counterexample: a run whose candidate set is non-empty (one nearby
station) and whose travel-time annotation succeeds for zero candidates
returns `Except.ok` with an empty recommendations list — it does not fail
with a `NoCandidatesFound`-equivalent error as the claim states. -/
theorem findMiddleStations_empty_timing_cex :
    extractCandidateStations envC2 locS2 locS2 mainC2 = [nearbyEntry nearW]
    ∧ calculateTravelTimes envC2 (extractCandidateStations envC2 locS2 locS2 mainC2)
        = []
    ∧ findMiddleStations envC2 "起点" "终点"
        = Except.ok
            { startAddress := "起点", startLocation := locS2,
              endAddress := "终点", endLocation := locS2, mainRoute := mainC2,
              recommendations := [], totalCandidates := 1 } := by
  have h1 : extractCandidateStations envC2 locS2 locS2 mainC2
      = [nearbyEntry nearW] := rfl
  refine ⟨h1, by rw [h1]; rfl, ?_⟩
  rw [findMiddleStations_unfold envC2 "起点" "终点" locS2 locS2 mainC2 rfl rfl rfl,
    h1]
  norm_num
  rw [show calculateTravelTimes envC2 [nearbyEntry nearW] = [] from rfl]
  simp [rankStations]

/-- Witness for the amended C2 on the concrete run `envC2`. -/
theorem findMiddleStations_empty_timing_ok_witness :
    (envC2.geocode "起点" = Except.ok locS2
      ∧ envC2.geocode "终点" = Except.ok locS2
      ∧ envC2.transitRoute locS2 locS2 = Except.ok mainC2
      ∧ extractCandidateStations envC2 locS2 locS2 mainC2 ≠ []
      ∧ calculateTravelTimes envC2
          (extractCandidateStations envC2 locS2 locS2 mainC2) = [])
    ∧ findMiddleStations envC2 "起点" "终点"
        = Except.ok
            { startAddress := "起点", startLocation := locS2,
              endAddress := "终点", endLocation := locS2, mainRoute := mainC2,
              recommendations := [],
              totalCandidates :=
                (extractCandidateStations envC2 locS2 locS2 mainC2).length } := by
  have hne : extractCandidateStations envC2 locS2 locS2 mainC2 ≠ [] := by
    rw [show extractCandidateStations envC2 locS2 locS2 mainC2
      = [nearbyEntry nearW] from rfl]
    simp
  have hz : calculateTravelTimes envC2
      (extractCandidateStations envC2 locS2 locS2 mainC2) = [] := by
    rw [show extractCandidateStations envC2 locS2 locS2 mainC2
      = [nearbyEntry nearW] from rfl]
    rfl
  exact ⟨⟨rfl, rfl, rfl, hne, hz⟩,
    (findMiddleStations_empty_timing_ok envC2 "起点" "终点" locS2 locS2 mainC2
      rfl rfl rfl hne hz).1⟩

end SubwayFinder
